import Mathlib

/-!
Verification of `generate_icons.py`: a shallow embedding of the icon
generation script.  Drawing calls become data (`DrawOp`), a canvas is a
record of its mode, size, initial background and accumulated draw
operations, and the script's execution becomes a concrete list of
effects (`programTrace`): directory creation, file saves and printed
lines.  A small filesystem semantics (`applyEvent` / `run`) interprets
the trace, and a failure-plan semantics (`runWithFailures`) models a
run in which some filesystem operation fails.
-/

/-- An RGBA color; each component is in 0..255 as in the script's tuples. -/
structure Color where
  r : Nat
  g : Nat
  b : Nat
  a : Nat
deriving DecidableEq

/-- A bounding box `[x0, y0, x1, y1]` as passed to the PIL draw calls. -/
structure BBox where
  x0 : Int
  y0 : Int
  x1 : Int
  y1 : Int
deriving DecidableEq

/-- A drawing primitive invoked on a canvas, mirroring the
`ImageDraw` calls of the script: `draw.arc`, `draw.pieslice`,
`draw.rectangle`, `draw.ellipse`. -/
inductive DrawOp where
  | arc (box : BBox) (startAngle endAngle : Int) (fill : Color) (width : Int)
  | pieslice (box : BBox) (startAngle endAngle : Int) (fill : Color)
  | rectangle (box : BBox) (fill : Color)
  | ellipse (box : BBox) (fill : Color)
deriving DecidableEq

/-- A canvas: mode and size as given to `Image.new`, the background it
was created with, and the draw operations applied to it, in order. -/
structure Canvas where
  mode : String
  width : Int
  height : Int
  background : Color
  ops : List DrawOp
deriving DecidableEq

/-- One observable effect of the script. -/
inductive Event where
  | makedirs (path : String) (existOk : Bool)
  | save (c : Canvas) (filename : String)
  | print (line : String)
deriving DecidableEq

/-- `out_dir = r"src\Resources"` from the script. -/
def out_dir : String := "src\\Resources"

/-- `os.path.join(out_dir, name)` on a POSIX host. -/
def joinPath (dir name : String) : String := dir ++ "/" ++ name

/-- `Image.new("RGBA", (16, 16), (0, 0, 0, 0))`. -/
def newCanvas : Canvas :=
  { mode := "RGBA", width := 16, height := 16
    background := ⟨0, 0, 0, 0⟩, ops := [] }

/-- `start_angle = i * 45` from the script. -/
def start_angle (i : Int) : Int := i * 45

/-- `end_angle = start_angle + 90` from the script. -/
def end_angle (i : Int) : Int := start_angle i + 90

/-- The canvas produced in spinner iteration `i`: a fresh canvas with
`draw.arc([1, 1, 14, 14], start_angle, end_angle, fill=(0, 102, 204, 255), width=2)`. -/
def spinnerCanvas (i : Int) : Canvas :=
  { newCanvas with
      ops := [DrawOp.arc ⟨1, 1, 14, 14⟩ (start_angle i) (end_angle i)
                ⟨0, 102, 204, 255⟩ 2] }

/-- The filename `f"spinner_{i}.png"`. -/
def spinnerFile (i : Nat) : String := "spinner_" ++ toString i ++ ".png"

/-- The effects of spinner iteration `i`: save the frame then print the
per-frame status line. -/
def spinnerEvents (i : Nat) : List Event :=
  [Event.save (spinnerCanvas i) (joinPath out_dir (spinnerFile i)),
   Event.print ("Generated " ++ spinnerFile i)]

/-- `bell_color = (220, 80, 40, 255)` from the script. -/
def bell_color : Color := ⟨220, 80, 40, 255⟩

/-- The bell canvas: a fresh canvas with the four fills of the script,
in source order: dome pie-slice, body rectangle, rim rectangle, clapper
ellipse. -/
def bellCanvas : Canvas :=
  { newCanvas with
      ops :=
        [DrawOp.pieslice ⟨3, 1, 12, 10⟩ 180 360 bell_color,
         DrawOp.rectangle ⟨3, 6, 12, 11⟩ bell_color,
         DrawOp.rectangle ⟨2, 11, 13, 13⟩ bell_color,
         DrawOp.ellipse ⟨6, 13, 9, 15⟩ bell_color] }

/-- The effects of the bell block: save `bell.png`, print its status line. -/
def bellEvents : List Event :=
  [Event.save bellCanvas (joinPath out_dir "bell.png"),
   Event.print "Generated bell.png"]

/-- The whole script as an ordered trace of effects: directory
preparation, the eight spinner iterations, the bell block, and the
final confirmation line. -/
def programTrace : List Event :=
  Event.makedirs out_dir true ::
    ((List.range 8).flatMap spinnerEvents ++ bellEvents ++
      [Event.print "All icons generated successfully!"])

/-- A filesystem: an association of filenames to saved canvases. -/
abbrev FS := List (String × Canvas)

/-- Write (or overwrite) a file. -/
def setFile (fs : FS) (name : String) (c : Canvas) : FS :=
  (name, c) :: fs.filter (fun p => p.1 != name)

/-- Read a file's content, if present. -/
def lookupFile (fs : FS) (name : String) : Option Canvas :=
  (fs.find? (fun p => p.1 == name)).map Prod.snd

/-- The world the script acts on: existing directories, files on disk,
and the lines printed so far. -/
structure WorldState where
  dirs : List String
  fs : FS
  stdout : List String
deriving DecidableEq

/-- Record a directory as existing. -/
def insertDir (p : String) (l : List String) : List String :=
  if p ∈ l then l else p :: l

/-- Interpret one effect against the world. -/
def applyEvent (s : WorldState) : Event → WorldState
  | Event.makedirs p _ => { s with dirs := insertDir p s.dirs }
  | Event.save c n => { s with fs := setFile s.fs n c }
  | Event.print l => { s with stdout := s.stdout ++ [l] }

/-- Run the whole script from a given world. -/
def run (s : WorldState) : WorldState := programTrace.foldl applyEvent s

/-- The empty world: no directories, no files, nothing printed. -/
def initState : WorldState := { dirs := [], fs := [], stdout := [] }

/-- The canvases saved by a trace, in order. -/
def savedCanvases (tr : List Event) : List Canvas :=
  tr.filterMap (fun e =>
    match e with
    | Event.save c _ => some c
    | _ => none)

/-- The full paths of the files the script writes. -/
def outputPaths : List String :=
  [joinPath out_dir "spinner_0.png", joinPath out_dir "spinner_1.png",
   joinPath out_dir "spinner_2.png", joinPath out_dir "spinner_3.png",
   joinPath out_dir "spinner_4.png", joinPath out_dir "spinner_5.png",
   joinPath out_dir "spinner_6.png", joinPath out_dir "spinner_7.png",
   joinPath out_dir "bell.png"]

/-- The canvas the script stores at each output path. -/
def outputTable : FS :=
  [(joinPath out_dir "spinner_0.png", spinnerCanvas 0),
   (joinPath out_dir "spinner_1.png", spinnerCanvas 1),
   (joinPath out_dir "spinner_2.png", spinnerCanvas 2),
   (joinPath out_dir "spinner_3.png", spinnerCanvas 3),
   (joinPath out_dir "spinner_4.png", spinnerCanvas 4),
   (joinPath out_dir "spinner_5.png", spinnerCanvas 5),
   (joinPath out_dir "spinner_6.png", spinnerCanvas 6),
   (joinPath out_dir "spinner_7.png", spinnerCanvas 7),
   (joinPath out_dir "bell.png", bellCanvas)]

/-- The fixed content at an output path, independent of any run. -/
def outputContent (n : String) : Option Canvas := lookupFile outputTable n

/-- A bounding box is valid for the 16×16 canvas: ordered corners that
lie within pixel coordinates 0..15. -/
abbrev boxValid (b : BBox) : Prop :=
  b.x0 ≤ b.x1 ∧ b.y0 ≤ b.y1 ∧
    0 ≤ b.x0 ∧ b.x1 ≤ 15 ∧ 0 ≤ b.y0 ∧ b.y1 ≤ 15

/-- All four color components lie in 0..255. -/
abbrev colorValid (c : Color) : Prop :=
  c.r ≤ 255 ∧ c.g ≤ 255 ∧ c.b ≤ 255 ∧ c.a ≤ 255

/-- A draw call's arguments are valid: valid bounding box, valid color,
and (for the stroked arc) a positive stroke width. -/
def opValid : DrawOp → Prop
  | DrawOp.arc box _ _ fill width => boxValid box ∧ colorValid fill ∧ 0 < width
  | DrawOp.pieslice box _ _ fill => boxValid box ∧ colorValid fill
  | DrawOp.rectangle box fill => boxValid box ∧ colorValid fill
  | DrawOp.ellipse box fill => boxValid box ∧ colorValid fill

instance : DecidablePred opValid := fun op =>
  match op with
  | DrawOp.arc b _ _ f w =>
      inferInstanceAs (Decidable (boxValid b ∧ colorValid f ∧ 0 < w))
  | DrawOp.pieslice b _ _ f =>
      inferInstanceAs (Decidable (boxValid b ∧ colorValid f))
  | DrawOp.rectangle b f =>
      inferInstanceAs (Decidable (boxValid b ∧ colorValid f))
  | DrawOp.ellipse b f =>
      inferInstanceAs (Decidable (boxValid b ∧ colorValid f))

/-- An angle `θ` (in degrees) lies on the arc of spinner frame `i`:
some representative of `θ` modulo 360 falls between the frame's
`start_angle` and `end_angle`. -/
def inSpan (i : Int) (θ : ℚ) : Prop :=
  ∃ k : ℤ, ((start_angle i : ℤ) : ℚ) ≤ θ + 360 * k ∧
    θ + 360 * k ≤ ((end_angle i : ℤ) : ℚ)

/-- Whether an effect touches the filesystem (directory creation or a
file write); `print` goes to standard output only. -/
def canFail : Event → Bool
  | Event.makedirs _ _ => true
  | Event.save _ _ => true
  | Event.print _ => false

/-- Run the trace under a failure plan: the `k`-th Boolean says whether
the `k`-th effect fails, should it touch the filesystem.  A failing
filesystem effect aborts the run immediately, leaving the world as it
was before the failing effect; beyond the end of the plan nothing
fails. -/
def runWithFailures : List Event → List Bool → WorldState → WorldState
  | [], _, s => s
  | e :: rest, [], s => runWithFailures rest [] (applyEvent s e)
  | e :: rest, f :: fl, s =>
      if canFail e && f then s else runWithFailures rest fl (applyEvent s e)

/-- A directory path as a nonempty list of components. -/
abbrev DirPath := List String

/-- The nonempty initial segments of a path: the chain of directories
that must exist for the path to exist, the path itself included. -/
def ancestors (p : DirPath) : List DirPath :=
  (List.range p.length).map (fun k => p.take (k + 1))

/-- Modelled from the spec: `os.makedirs(path, exist_ok=True)` is
Python standard-library code, not part of this repository.  Following
the spec's contract, the call creates the target directory and any
missing intermediate directories; with `exist_ok` set it succeeds
silently when the directory already exists, and otherwise an existing
target is an error.  The directory set is only ever extended, and only
by initial segments of the target path. -/
def makedirs (p : DirPath) (existOk : Bool) (dirs : List DirPath) :
    Except String (List DirPath) :=
  if p ∈ dirs ∧ existOk = false then Except.error "FileExistsError"
  else Except.ok (dirs ++ (ancestors p).filter (fun q => q ∉ dirs))

/-- C1: for every `i` in 0..7, the spinner frame generator draws, on a
fresh 16×16 transparent RGBA canvas, a stroked arc of width 2 in
bounding box (1,1)-(14,14) from `i*45` to `i*45+90` degrees in solid
opaque blue (0,102,204,255), and the trace saves it under
`spinner_{i}.png` in the output directory. -/
theorem spinner_frames_drawn :
    ∀ i : Fin 8,
      spinnerCanvas i.val =
        { mode := "RGBA", width := 16, height := 16,
          background := ⟨0, 0, 0, 0⟩,
          ops := [DrawOp.arc ⟨1, 1, 14, 14⟩ ((i.val : Int) * 45)
                    ((i.val : Int) * 45 + 90) ⟨0, 102, 204, 255⟩ 2] } ∧
      Event.save (spinnerCanvas i.val)
          (joinPath out_dir ("spinner_" ++ toString i.val ++ ".png")) ∈
        programTrace := by
  decide

/-- C2: the bell generator draws, on one fresh canvas and all in the
single opaque orange-red color (220,80,40,255) and in this exact order,
the dome pie-slice in box (3,1)-(12,10) sweeping 180°→360°, the body
rectangle (3,6)-(12,11), the rim rectangle (2,11)-(13,13) and the
clapper ellipse (6,13)-(9,15); the trace saves it under `bell.png`. -/
theorem bell_icon_drawn :
    bellCanvas =
      { mode := "RGBA", width := 16, height := 16,
        background := ⟨0, 0, 0, 0⟩,
        ops := [DrawOp.pieslice ⟨3, 1, 12, 10⟩ 180 360 ⟨220, 80, 40, 255⟩,
                DrawOp.rectangle ⟨3, 6, 12, 11⟩ ⟨220, 80, 40, 255⟩,
                DrawOp.rectangle ⟨2, 11, 13, 13⟩ ⟨220, 80, 40, 255⟩,
                DrawOp.ellipse ⟨6, 13, 9, 15⟩ ⟨220, 80, 40, 255⟩] } ∧
    Event.save bellCanvas (joinPath out_dir "bell.png") ∈ programTrace := by
  decide

/-- C3: a complete run is, in order, directory preparation, the eight
spinner saves each followed by its per-frame status line, the bell save
followed by its status line, and the final confirmation line; against an
empty world it leaves exactly the nine named files on disk and prints
exactly ten lines. -/
theorem full_run_outputs :
    programTrace =
      [Event.makedirs out_dir true,
       Event.save (spinnerCanvas 0) (joinPath out_dir "spinner_0.png"),
       Event.print "Generated spinner_0.png",
       Event.save (spinnerCanvas 1) (joinPath out_dir "spinner_1.png"),
       Event.print "Generated spinner_1.png",
       Event.save (spinnerCanvas 2) (joinPath out_dir "spinner_2.png"),
       Event.print "Generated spinner_2.png",
       Event.save (spinnerCanvas 3) (joinPath out_dir "spinner_3.png"),
       Event.print "Generated spinner_3.png",
       Event.save (spinnerCanvas 4) (joinPath out_dir "spinner_4.png"),
       Event.print "Generated spinner_4.png",
       Event.save (spinnerCanvas 5) (joinPath out_dir "spinner_5.png"),
       Event.print "Generated spinner_5.png",
       Event.save (spinnerCanvas 6) (joinPath out_dir "spinner_6.png"),
       Event.print "Generated spinner_6.png",
       Event.save (spinnerCanvas 7) (joinPath out_dir "spinner_7.png"),
       Event.print "Generated spinner_7.png",
       Event.save bellCanvas (joinPath out_dir "bell.png"),
       Event.print "Generated bell.png",
       Event.print "All icons generated successfully!"] ∧
    (run initState).fs.map Prod.fst =
      [joinPath out_dir "bell.png",
       joinPath out_dir "spinner_7.png", joinPath out_dir "spinner_6.png",
       joinPath out_dir "spinner_5.png", joinPath out_dir "spinner_4.png",
       joinPath out_dir "spinner_3.png", joinPath out_dir "spinner_2.png",
       joinPath out_dir "spinner_1.png", joinPath out_dir "spinner_0.png"] ∧
    ((run initState).fs.map Prod.fst).Nodup ∧
    (run initState).fs.length = 9 ∧
    (run initState).stdout =
      ["Generated spinner_0.png", "Generated spinner_1.png",
       "Generated spinner_2.png", "Generated spinner_3.png",
       "Generated spinner_4.png", "Generated spinner_5.png",
       "Generated spinner_6.png", "Generated spinner_7.png",
       "Generated bell.png", "All icons generated successfully!"] := by
  refine ⟨by decide, by decide, by decide, by decide, by decide⟩

/-- C5: every canvas the script saves (the eight spinner canvases and
the bell canvas) is a 16×16 RGBA canvas created fully transparent, and
the nine canvases are pairwise distinct values, none reused. -/
theorem canvases_fresh_transparent :
    (∀ c ∈ savedCanvases programTrace,
        c.mode = "RGBA" ∧ c.width = 16 ∧ c.height = 16 ∧
          c.background = ⟨0, 0, 0, 0⟩) ∧
    (savedCanvases programTrace).Nodup ∧
    (savedCanvases programTrace).length = 9 := by
  refine ⟨by decide, by decide, by decide⟩

/-- Witness for C5 at the bell canvas. -/
theorem canvases_fresh_transparent_witness :
    bellCanvas.mode = "RGBA" ∧ bellCanvas.width = 16 ∧
      bellCanvas.height = 16 ∧ bellCanvas.background = ⟨0, 0, 0, 0⟩ :=
  canvases_fresh_transparent.1 bellCanvas (by decide)

/-- C8: every drawing parameter passed to the library is hard-coded and
valid for the 16×16 canvas: ordered bounding-box corners within
0..15, color components within 0..255, and a positive stroke width for
the arc. -/
theorem draw_params_valid :
    ∀ op ∈ (savedCanvases programTrace).flatMap Canvas.ops, opValid op := by
  decide

/-- Witness for C8 at the clapper ellipse call. -/
theorem draw_params_valid_witness :
    opValid (DrawOp.ellipse ⟨6, 13, 9, 15⟩ bell_color) :=
  draw_params_valid (DrawOp.ellipse ⟨6, 13, 9, 15⟩ bell_color) (by decide)

theorem inSpan_intro (i : Int) (θ : ℚ) (k : ℤ)
    (h1 : ((start_angle i : ℤ) : ℚ) ≤ θ + 360 * k)
    (h2 : θ + 360 * k ≤ ((end_angle i : ℤ) : ℚ)) : inSpan i θ :=
  ⟨k, h1, h2⟩

/-- C4: every angle in [0, 360) lies on the arcs of at least two
distinct spinner frames: the eight 90°-spans starting at multiples of
45° cover the circle twice over. -/
theorem spinner_angular_coverage (θ : ℚ) (h0 : 0 ≤ θ) (h1 : θ < 360) :
    ∃ i j : Fin 8, i ≠ j ∧ inSpan i.val θ ∧ inSpan j.val θ := by
  rcases lt_or_le θ 45 with h | h
  · refine ⟨⟨0, by norm_num⟩, ⟨7, by norm_num⟩, by decide,
      inSpan_intro _ _ 0 ?_ ?_, inSpan_intro _ _ 1 ?_ ?_⟩ <;>
      norm_num [start_angle, end_angle] <;> linarith
  rcases lt_or_le θ 90 with h' | h'
  · refine ⟨⟨1, by norm_num⟩, ⟨0, by norm_num⟩, by decide,
      inSpan_intro _ _ 0 ?_ ?_, inSpan_intro _ _ 0 ?_ ?_⟩ <;>
      norm_num [start_angle, end_angle] <;> linarith
  rcases lt_or_le θ 135 with h'' | h''
  · refine ⟨⟨2, by norm_num⟩, ⟨1, by norm_num⟩, by decide,
      inSpan_intro _ _ 0 ?_ ?_, inSpan_intro _ _ 0 ?_ ?_⟩ <;>
      norm_num [start_angle, end_angle] <;> linarith
  rcases lt_or_le θ 180 with h3 | h3
  · refine ⟨⟨3, by norm_num⟩, ⟨2, by norm_num⟩, by decide,
      inSpan_intro _ _ 0 ?_ ?_, inSpan_intro _ _ 0 ?_ ?_⟩ <;>
      norm_num [start_angle, end_angle] <;> linarith
  rcases lt_or_le θ 225 with h4 | h4
  · refine ⟨⟨4, by norm_num⟩, ⟨3, by norm_num⟩, by decide,
      inSpan_intro _ _ 0 ?_ ?_, inSpan_intro _ _ 0 ?_ ?_⟩ <;>
      norm_num [start_angle, end_angle] <;> linarith
  rcases lt_or_le θ 270 with h5 | h5
  · refine ⟨⟨5, by norm_num⟩, ⟨4, by norm_num⟩, by decide,
      inSpan_intro _ _ 0 ?_ ?_, inSpan_intro _ _ 0 ?_ ?_⟩ <;>
      norm_num [start_angle, end_angle] <;> linarith
  rcases lt_or_le θ 315 with h6 | h6
  · refine ⟨⟨6, by norm_num⟩, ⟨5, by norm_num⟩, by decide,
      inSpan_intro _ _ 0 ?_ ?_, inSpan_intro _ _ 0 ?_ ?_⟩ <;>
      norm_num [start_angle, end_angle] <;> linarith
  · refine ⟨⟨7, by norm_num⟩, ⟨6, by norm_num⟩, by decide,
      inSpan_intro _ _ 0 ?_ ?_, inSpan_intro _ _ 0 ?_ ?_⟩ <;>
      norm_num [start_angle, end_angle] <;> linarith

/-- Witness for C4 at the angle 100°. -/
theorem spinner_angular_coverage_witness :
    ∃ i j : Fin 8, i ≠ j ∧ inSpan i.val 100 ∧ inSpan j.val 100 :=
  spinner_angular_coverage 100 (by norm_num) (by norm_num)

/-- C10: the last spinner frame is passed the end angle 405, which
exceeds 360; for angles taken modulo 360 its arc sweeps from 315°
through the 0° position up to 45°. -/
theorem last_frame_angle_wraps :
    end_angle 7 = 405 ∧ 360 < end_angle 7 ∧
    (spinnerCanvas 7).ops =
      [DrawOp.arc ⟨1, 1, 14, 14⟩ 315 405 ⟨0, 102, 204, 255⟩ 2] ∧
    (∀ θ : ℚ, 0 ≤ θ → θ < 360 → (inSpan 7 θ ↔ 315 ≤ θ ∨ θ ≤ 45)) := by
  refine ⟨by decide, by decide, by decide, fun θ h0 h1 => ⟨?_, ?_⟩⟩
  · rintro ⟨k, hk1, hk2⟩
    have e1 : ((start_angle 7 : ℤ) : ℚ) = 315 := by norm_num [start_angle]
    have e2 : ((end_angle 7 : ℤ) : ℚ) = 405 := by
      norm_num [start_angle, end_angle]
    rw [e1] at hk1
    rw [e2] at hk2
    have hk0 : (0 : ℤ) ≤ k := by
      by_contra hneg
      push_neg at hneg
      have hone : k ≤ -1 := by omega
      have hone' : (k : ℚ) ≤ -1 := by exact_mod_cast hone
      linarith
    have hk1' : k ≤ 1 := by
      by_contra hgt
      push_neg at hgt
      have htwo : (2 : ℤ) ≤ k := by omega
      have htwo' : (2 : ℚ) ≤ (k : ℚ) := by exact_mod_cast htwo
      linarith
    interval_cases k
    · left
      simpa using hk1
    · right
      push_cast at hk2
      linarith
  · rintro (h | h)
    · refine ⟨0, ?_, ?_⟩ <;> norm_num [start_angle, end_angle] <;> linarith
    · refine ⟨1, ?_, ?_⟩ <;> norm_num [start_angle, end_angle] <;> linarith

/-- Witness for C10 at the angle 20°, which the last frame reaches only
by wrapping past 360°. -/
theorem last_frame_angle_wraps_witness : inSpan 7 20 :=
  (last_frame_angle_wraps.2.2.2 20 (by norm_num) (by norm_num)).mpr
    (Or.inr (by norm_num))

theorem lookupFile_setFile_self (fs : FS) (n : String) (c : Canvas) :
    lookupFile (setFile fs n c) n = some c := by
  simp [lookupFile, setFile, List.find?_cons_of_pos]

theorem find?_filter_ne (fs : FS) (m n : String) (h : n ≠ m) :
    (fs.filter (fun p => p.1 != m)).find? (fun p => p.1 == n) =
      fs.find? (fun p => p.1 == n) := by
  induction fs with
  | nil => rfl
  | cons p fs ih =>
      rcases eq_or_ne p.1 m with hp | hp
      · have hn : (p.1 == n) = false := by
          rw [hp]
          simpa using Ne.symm h
        have hm : (m == n) = false := by simpa using Ne.symm h
        simp [List.filter_cons, hp, List.find?_cons, hn, hm, ih]
      · by_cases hn : p.1 = n
        · simp [List.filter_cons, hp, List.find?_cons, hn, h, ih]
        · simp [List.filter_cons, hp, List.find?_cons, hn, h, ih]

theorem lookupFile_setFile_ne (fs : FS) (m n : String) (c : Canvas) (h : n ≠ m) :
    lookupFile (setFile fs m c) n = lookupFile fs n := by
  unfold lookupFile setFile
  rw [List.find?_cons_of_neg, find?_filter_ne fs m n h]
  simpa using Ne.symm h

theorem run_fs_chain (s : WorldState) :
    (run s).fs =
      setFile (setFile (setFile (setFile (setFile (setFile (setFile (setFile
        (setFile s.fs (joinPath out_dir "spinner_0.png") (spinnerCanvas 0))
          (joinPath out_dir "spinner_1.png") (spinnerCanvas 1))
          (joinPath out_dir "spinner_2.png") (spinnerCanvas 2))
          (joinPath out_dir "spinner_3.png") (spinnerCanvas 3))
          (joinPath out_dir "spinner_4.png") (spinnerCanvas 4))
          (joinPath out_dir "spinner_5.png") (spinnerCanvas 5))
          (joinPath out_dir "spinner_6.png") (spinnerCanvas 6))
          (joinPath out_dir "spinner_7.png") (spinnerCanvas 7))
        (joinPath out_dir "bell.png") bellCanvas := rfl

theorem lookupFile_run (s : WorldState) (n : String) (h : n ∈ outputPaths) :
    lookupFile (run s).fs n = outputContent n := by
  simp only [outputPaths, List.mem_cons, List.not_mem_nil, or_false] at h
  rcases h with rfl | rfl | rfl | rfl | rfl | rfl | rfl | rfl | rfl
  · rw [run_fs_chain,
      lookupFile_setFile_ne _ (joinPath out_dir "bell.png") (joinPath out_dir "spinner_0.png") bellCanvas (by decide),
      lookupFile_setFile_ne _ (joinPath out_dir "spinner_7.png") (joinPath out_dir "spinner_0.png") (spinnerCanvas 7) (by decide),
      lookupFile_setFile_ne _ (joinPath out_dir "spinner_6.png") (joinPath out_dir "spinner_0.png") (spinnerCanvas 6) (by decide),
      lookupFile_setFile_ne _ (joinPath out_dir "spinner_5.png") (joinPath out_dir "spinner_0.png") (spinnerCanvas 5) (by decide),
      lookupFile_setFile_ne _ (joinPath out_dir "spinner_4.png") (joinPath out_dir "spinner_0.png") (spinnerCanvas 4) (by decide),
      lookupFile_setFile_ne _ (joinPath out_dir "spinner_3.png") (joinPath out_dir "spinner_0.png") (spinnerCanvas 3) (by decide),
      lookupFile_setFile_ne _ (joinPath out_dir "spinner_2.png") (joinPath out_dir "spinner_0.png") (spinnerCanvas 2) (by decide),
      lookupFile_setFile_ne _ (joinPath out_dir "spinner_1.png") (joinPath out_dir "spinner_0.png") (spinnerCanvas 1) (by decide),
      lookupFile_setFile_self]
    decide
  · rw [run_fs_chain,
      lookupFile_setFile_ne _ (joinPath out_dir "bell.png") (joinPath out_dir "spinner_1.png") bellCanvas (by decide),
      lookupFile_setFile_ne _ (joinPath out_dir "spinner_7.png") (joinPath out_dir "spinner_1.png") (spinnerCanvas 7) (by decide),
      lookupFile_setFile_ne _ (joinPath out_dir "spinner_6.png") (joinPath out_dir "spinner_1.png") (spinnerCanvas 6) (by decide),
      lookupFile_setFile_ne _ (joinPath out_dir "spinner_5.png") (joinPath out_dir "spinner_1.png") (spinnerCanvas 5) (by decide),
      lookupFile_setFile_ne _ (joinPath out_dir "spinner_4.png") (joinPath out_dir "spinner_1.png") (spinnerCanvas 4) (by decide),
      lookupFile_setFile_ne _ (joinPath out_dir "spinner_3.png") (joinPath out_dir "spinner_1.png") (spinnerCanvas 3) (by decide),
      lookupFile_setFile_ne _ (joinPath out_dir "spinner_2.png") (joinPath out_dir "spinner_1.png") (spinnerCanvas 2) (by decide),
      lookupFile_setFile_self]
    decide
  · rw [run_fs_chain,
      lookupFile_setFile_ne _ (joinPath out_dir "bell.png") (joinPath out_dir "spinner_2.png") bellCanvas (by decide),
      lookupFile_setFile_ne _ (joinPath out_dir "spinner_7.png") (joinPath out_dir "spinner_2.png") (spinnerCanvas 7) (by decide),
      lookupFile_setFile_ne _ (joinPath out_dir "spinner_6.png") (joinPath out_dir "spinner_2.png") (spinnerCanvas 6) (by decide),
      lookupFile_setFile_ne _ (joinPath out_dir "spinner_5.png") (joinPath out_dir "spinner_2.png") (spinnerCanvas 5) (by decide),
      lookupFile_setFile_ne _ (joinPath out_dir "spinner_4.png") (joinPath out_dir "spinner_2.png") (spinnerCanvas 4) (by decide),
      lookupFile_setFile_ne _ (joinPath out_dir "spinner_3.png") (joinPath out_dir "spinner_2.png") (spinnerCanvas 3) (by decide),
      lookupFile_setFile_self]
    decide
  · rw [run_fs_chain,
      lookupFile_setFile_ne _ (joinPath out_dir "bell.png") (joinPath out_dir "spinner_3.png") bellCanvas (by decide),
      lookupFile_setFile_ne _ (joinPath out_dir "spinner_7.png") (joinPath out_dir "spinner_3.png") (spinnerCanvas 7) (by decide),
      lookupFile_setFile_ne _ (joinPath out_dir "spinner_6.png") (joinPath out_dir "spinner_3.png") (spinnerCanvas 6) (by decide),
      lookupFile_setFile_ne _ (joinPath out_dir "spinner_5.png") (joinPath out_dir "spinner_3.png") (spinnerCanvas 5) (by decide),
      lookupFile_setFile_ne _ (joinPath out_dir "spinner_4.png") (joinPath out_dir "spinner_3.png") (spinnerCanvas 4) (by decide),
      lookupFile_setFile_self]
    decide
  · rw [run_fs_chain,
      lookupFile_setFile_ne _ (joinPath out_dir "bell.png") (joinPath out_dir "spinner_4.png") bellCanvas (by decide),
      lookupFile_setFile_ne _ (joinPath out_dir "spinner_7.png") (joinPath out_dir "spinner_4.png") (spinnerCanvas 7) (by decide),
      lookupFile_setFile_ne _ (joinPath out_dir "spinner_6.png") (joinPath out_dir "spinner_4.png") (spinnerCanvas 6) (by decide),
      lookupFile_setFile_ne _ (joinPath out_dir "spinner_5.png") (joinPath out_dir "spinner_4.png") (spinnerCanvas 5) (by decide),
      lookupFile_setFile_self]
    decide
  · rw [run_fs_chain,
      lookupFile_setFile_ne _ (joinPath out_dir "bell.png") (joinPath out_dir "spinner_5.png") bellCanvas (by decide),
      lookupFile_setFile_ne _ (joinPath out_dir "spinner_7.png") (joinPath out_dir "spinner_5.png") (spinnerCanvas 7) (by decide),
      lookupFile_setFile_ne _ (joinPath out_dir "spinner_6.png") (joinPath out_dir "spinner_5.png") (spinnerCanvas 6) (by decide),
      lookupFile_setFile_self]
    decide
  · rw [run_fs_chain,
      lookupFile_setFile_ne _ (joinPath out_dir "bell.png") (joinPath out_dir "spinner_6.png") bellCanvas (by decide),
      lookupFile_setFile_ne _ (joinPath out_dir "spinner_7.png") (joinPath out_dir "spinner_6.png") (spinnerCanvas 7) (by decide),
      lookupFile_setFile_self]
    decide
  · rw [run_fs_chain,
      lookupFile_setFile_ne _ (joinPath out_dir "bell.png") (joinPath out_dir "spinner_7.png") bellCanvas (by decide),
      lookupFile_setFile_self]
    decide
  · rw [run_fs_chain,
      lookupFile_setFile_self]
    decide

/-- C6: the content stored at each output path after a run is a fixed
constant, independent of the world the run started from; hence two runs
in succession (or from any two worlds) leave identical content at every
output file. -/
theorem run_deterministic (s t : WorldState) (n : String)
    (h : n ∈ outputPaths) :
    lookupFile (run s).fs n = lookupFile (run t).fs n :=
  (lookupFile_run s n h).trans (lookupFile_run t n h).symm

/-- Witness for C6: a second run over the first run's world leaves the
same `bell.png` as the first run from the empty world. -/
theorem run_deterministic_witness :
    lookupFile (run (run initState)).fs (joinPath out_dir "bell.png") =
      lookupFile (run initState).fs (joinPath out_dir "bell.png") :=
  run_deterministic (run initState) initState (joinPath out_dir "bell.png")
    (by decide)

theorem self_mem_ancestors (p : DirPath) (hp : p ≠ []) : p ∈ ancestors p := by
  have hl : 0 < p.length := List.length_pos.mpr hp
  refine List.mem_map.mpr ⟨p.length - 1, List.mem_range.mpr (by omega), ?_⟩
  have he : p.length - 1 + 1 = p.length := by omega
  rw [he, List.take_length]

/-- C7: the directory-preparation step is the first effect of the run,
and `makedirs` with `exist_ok` set succeeds on any starting directory
set — in particular silently when the directory already exists — yields
a set containing the target and every intermediate directory, and
changes nothing else: the new set is exactly the old one plus initial
segments of the target path. -/
theorem directory_preparation (p : DirPath) (dirs : List DirPath)
    (hp : p ≠ []) :
    programTrace.head? = some (Event.makedirs out_dir true) ∧
    ∃ dirs', makedirs p true dirs = Except.ok dirs' ∧
      p ∈ dirs' ∧
      (∀ q, q ∈ ancestors p → q ∈ dirs') ∧
      (∀ d, d ∈ dirs' ↔ (d ∈ dirs ∨ d ∈ ancestors p)) := by
  refine ⟨by decide, dirs ++ (ancestors p).filter (fun q => q ∉ dirs),
    by simp [makedirs], ?_, ?_, ?_⟩
  · by_cases h : p ∈ dirs
    · exact List.mem_append_left _ h
    · exact List.mem_append_right _
        (List.mem_filter.mpr ⟨self_mem_ancestors p hp, by simpa using h⟩)
  · intro q hq
    by_cases h : q ∈ dirs
    · exact List.mem_append_left _ h
    · exact List.mem_append_right _
        (List.mem_filter.mpr ⟨hq, by simpa using h⟩)
  · intro d
    simp only [List.mem_append, List.mem_filter, decide_not,
      Bool.not_eq_eq_eq_not, Bool.not_true, decide_eq_false_iff_not]
    constructor
    · rintro (h | ⟨h, _⟩)
      · exact Or.inl h
      · exact Or.inr h
    · rintro (h | h)
      · exact Or.inl h
      · by_cases hd : d ∈ dirs
        · exact Or.inl hd
        · exact Or.inr ⟨h, hd⟩

/-- Witness for C7 at the script's own path, in a state where the
directory already exists. -/
theorem directory_preparation_witness :
    programTrace.head? = some (Event.makedirs out_dir true) ∧
    ∃ dirs', makedirs [out_dir] true [[out_dir]] = Except.ok dirs' ∧
      [out_dir] ∈ dirs' ∧
      (∀ q, q ∈ ancestors [out_dir] → q ∈ dirs') ∧
      (∀ d, d ∈ dirs' ↔ (d ∈ [[out_dir]] ∨ d ∈ ancestors [out_dir])) :=
  directory_preparation [out_dir] [[out_dir]] (by decide)

theorem runWithFailures_take (k : Nat) (events : List Event)
    (tl : List Bool) (s : WorldState) (hk : k < events.length)
    (hcf : canFail (events.getD k (Event.print "")) = true) :
    runWithFailures events (List.replicate k false ++ true :: tl) s =
      (events.take k).foldl applyEvent s := by
  induction k generalizing events s with
  | zero =>
      cases events with
      | nil => simp at hk
      | cons e rest =>
          have hcf' : canFail e = true := by simpa [List.getD] using hcf
          simp [runWithFailures, hcf']
  | succ k ih =>
      cases events with
      | nil => simp at hk
      | cons e rest =>
          rw [List.replicate_succ, List.cons_append]
          rw [runWithFailures]
          simp only [Bool.and_false, if_false]
          rw [List.take_succ_cons, List.foldl_cons]
          exact ih rest (applyEvent s e) (by simpa using hk)
            (by simpa [List.getD] using hcf)

/-- C9: when the first failing filesystem effect is the `k`-th effect of
the trace, the run stops there: the resulting world is exactly the one
obtained by executing only the first `k` effects — earlier files and
printed lines are intact, and nothing after the failure is written,
printed, or retried. -/
theorem filesystem_failure_aborts (k : Nat) (tl : List Bool)
    (s : WorldState) (hk : k < programTrace.length)
    (hcf : canFail (programTrace.getD k (Event.print "")) = true) :
    runWithFailures programTrace (List.replicate k false ++ true :: tl) s =
      (programTrace.take k).foldl applyEvent s :=
  runWithFailures_take k programTrace tl s hk hcf

/-- Witness for C9: the write of `spinner_1.png` (the fourth effect)
fails; the run stops after the first three effects. -/
theorem filesystem_failure_aborts_witness :
    runWithFailures programTrace (List.replicate 3 false ++ [true])
        initState =
      (programTrace.take 3).foldl applyEvent initState :=
  filesystem_failure_aborts 3 [] initState (by decide) (by decide)
